import Mathlib

set_option maxHeartbeats 1600000

namespace Chronicle

/-! Verification of the Chronicle wisdom-extraction eval framework
(`eval/models.py`, `eval/scoring.py`, `eval/judge.py`, `eval/extract.py`,
`eval/driver.py`, `eval/analysis.py`, `eval/__main__.py`).

Python values flowing out of `json.loads` are modelled by the `Json`
inductive below; Python numbers are modelled as rationals and dynamic
failures (`KeyError`, `AttributeError`, `TypeError`, ...) as
`Except String` errors. -/

/-- JSON values as produced by Python `json.loads`: null, booleans, numbers
(modelled as rationals), strings, arrays and objects. Objects are key-value
lists; `json.loads` never produces duplicate keys, so lookup takes the first
match. -/
inductive Json where
  | jnull
  | jbool (b : Bool)
  | jnum (q : ℚ)
  | jstr (s : String)
  | jarr (xs : List Json)
  | jobj (kvs : List (String × Json))

/-- First value bound to `key` in an association list (Python dict lookup). -/
def assocFind (kvs : List (String × Json)) (key : String) : Option Json :=
  match kvs with
  | [] => none
  | (k, v) :: rest => if k = key then some v else assocFind rest key

/-- Python `d.get(key, dflt)`: returns the bound value or the default;
`AttributeError` when the receiver is not a dict. -/
def dictGet (j : Json) (key : String) (dflt : Json) : Except String Json :=
  match j with
  | .jobj kvs => .ok ((assocFind kvs key).getD dflt)
  | _ => .error "AttributeError"

/-- Python `d[key]` subscripting: `KeyError` when absent, `TypeError` when the
receiver is not a dict. -/
def jIndex (j : Json) (key : String) : Except String Json :=
  match j with
  | .jobj kvs =>
    match assocFind kvs key with
    | some v => .ok v
    | none => .error ("KeyError: " ++ key)
  | _ => .error "TypeError"

/-- Python truthiness of a JSON value. -/
def truthy : Json → Bool
  | .jnull => false
  | .jbool b => b
  | .jnum q => q ≠ 0
  | .jstr s => s ≠ ""
  | .jarr xs => ¬ xs.isEmpty
  | .jobj kvs => ¬ kvs.isEmpty

/-- A JSON value used as a Python number (as in `sum(...)` or `+`):
numbers pass through, booleans count as 0/1, anything else is a `TypeError`. -/
def asNum : Json → Except String ℚ
  | .jnum q => .ok q
  | .jbool b => .ok (if b then 1 else 0)
  | _ => .error "TypeError"

/-- Digits of a natural number string, used by `pyInt` below. -/
def parseDigits (cs : List Char) : Option Nat :=
  match cs with
  | [] => none
  | _ =>
    if cs.all (·.isDigit) then
      some (cs.foldl (fun acc c => acc * 10 + (c.toNat - 48)) 0)
    else none

/-- Python `int(x)` applied to a JSON value: truncates numbers toward zero,
parses integer strings (optionally signed), maps booleans to 0/1 and raises
(`TypeError`/`ValueError`) on anything else. -/
def pyInt : Json → Except String Int
  | .jnum q => .ok (if 0 ≤ q then q.floor else q.ceil)
  | .jbool b => .ok (if b then 1 else 0)
  | .jstr s =>
    match s.data with
    | '-' :: rest =>
      match parseDigits rest with
      | some n => .ok (-(n : Int))
      | none => .error "ValueError"
    | cs =>
      match parseDigits cs with
      | some n => .ok (n : Int)
      | none => .error "ValueError"
  | _ => .error "TypeError"

/-- Python `for x in j`: arrays iterate their elements, strings iterate their
characters (as one-character strings), everything else is a `TypeError`. -/
def pyIter : Json → Except String (List Json)
  | .jarr xs => .ok xs
  | .jstr s => .ok (s.data.map fun c => Json.jstr (String.mk [c]))
  | _ => .error "TypeError"

/-- Whether an `Except` computation succeeded. -/
def exceptIsOk {α : Type} : Except String α → Bool
  | .ok _ => true
  | .error _ => false

/-- A Python for-loop building a list, aborting on the first exception. -/
def mapE {α β : Type} (f : α → Except String β) : List α → Except String (List β)
  | [] => .ok []
  | x :: xs => do
    let y ← f x
    let ys ← mapE f xs
    pure (y :: ys)

/-- A Python for-loop building a list, aborting on the first `IndexError`. -/
def mapO {α β : Type} (f : α → Option β) : List α → Option (List β)
  | [] => some []
  | x :: xs => do
    let y ← f x
    let ys ← mapO f xs
    pure (y :: ys)

/-- A Python for-loop updating an accumulator, aborting on the first
exception. -/
def foldE {α β : Type} (f : β → α → Except String β) (init : β) :
    List α → Except String β
  | [] => .ok init
  | x :: xs => do
    let b ← f init x
    foldE f b xs

/-- Characters stripped by Python `str.strip()`. -/
def isPySpace (c : Char) : Bool :=
  c = ' ' || c = '\t' || c = '\n' || c = '\r' || c = '\x0b' || c = '\x0c'

/-- Python `str.strip()` on a character list. -/
def pyStrip (cs : List Char) : List Char :=
  ((cs.dropWhile isPySpace).reverse.dropWhile isPySpace).reverse

/-- Number of words of Python `s.split()`: counts the maximal
whitespace-separated runs with a single left-to-right scan. -/
def wordCount (cs : List Char) : Nat :=
  (cs.foldl
    (fun (acc : Nat × Bool) c =>
      if isPySpace c then (acc.1, false)
      else if acc.2 then acc else (acc.1 + 1, true))
    (0, false)).1

-- ---------------------------------------------------------------------------
-- Data model (eval/models.py)
-- ---------------------------------------------------------------------------

/-- One unit of agent-recorded insight (`WisdomEntry` in `models.py`). -/
structure WisdomEntry where
  category : String
  content : String
  file : Option String := none
  deriving DecidableEq, Repr

/-- One recorded commit record (`Annotation` in `models.py`; shortened name). -/
structure Annot where
  commit_sha : String
  timestamp : String
  summary : String
  wisdom : List WisdomEntry := []
  deriving DecidableEq, Repr

/-- Full outcome of one task execution (`RunResult` in `models.py`);
`annots` models the `annotations` field. -/
structure RunResult where
  task_id : String
  prompt_variant : String
  annots : List Annot
  commit_messages : List String
  files_changed : List String
  diff_text : String
  agent_output : String
  elapsed_seconds : ℚ
  success : Bool
  error : Option String := none
  deriving DecidableEq, Repr

/-- The six heuristic floor metrics (`HeuristicScores` in `models.py`). -/
structure HeuristicScores where
  msg_overlap : ℚ
  specificity : ℚ
  wisdom_density : ℚ
  category_coverage : ℚ
  grounding_ratio : ℚ
  content_length : ℚ
  deriving DecidableEq, Repr

/-- Per-entry LLM quality rating (`WisdomQualityScore` in `models.py`).
`classification` and `reasoning` hold whatever JSON values the judge returned
(Python stores them untyped). -/
structure WisdomQualityScore where
  entry_index : Int
  category : String
  redundancy : Int
  specificity : Int
  actionability : Int
  depth : Int
  accuracy : Int
  classification : Json
  reasoning : Json

/-- Per-ground-truth-item coverage verdict (`CoverageResult` in `models.py`). -/
structure CoverageResult where
  ground_truth_index : Int
  tier : String
  coverage : String
  matched_entry : Option Int
  explanation : String
  deriving DecidableEq, Repr

/-- Aggregated judge scores for one run (`LLMJudgeScores` in `models.py`). -/
structure LLMJudgeScores where
  mean_redundancy : ℚ
  mean_specificity : ℚ
  mean_actionability : ℚ
  mean_depth : ℚ
  mean_accuracy : ℚ
  high_value_count : ℕ
  moderate_value_count : ℕ
  low_value_count : ℕ
  noise_count : ℕ
  surface_coverage : ℚ
  standard_coverage : ℚ
  deep_coverage : ℚ
  surface_full : ℚ
  standard_full : ℚ
  deep_full : ℚ
  quality_scores : List WisdomQualityScore := []
  coverage_results : List CoverageResult := []
  judge_model : String := ""

/-- Per-run report (`ScoreReport` in `models.py`); `annot_count` models the
`annotation_count` field. -/
structure ScoreReport where
  task_id : String
  prompt_variant : String
  heuristic : HeuristicScores
  annot_count : ℕ
  wisdom_count : ℕ
  judge : Option LLMJudgeScores := none

/-- One planted insight, as passed to the coverage judge
(the `ground_truth` dicts built in `judge_run`). -/
structure GroundTruth where
  category : String
  content : String
  tier : String
  deriving DecidableEq, Repr

-- ---------------------------------------------------------------------------
-- Heuristic scoring (eval/scoring.py)
-- ---------------------------------------------------------------------------

/-- Truthiness of the optional `.file` field (`if entry.file`). -/
def fileTruthy : Option String → Bool
  | some s => s ≠ ""
  | none => false

/-- Character trigrams of `text.lower().strip()` (`_trigrams` in
`scoring.py`): strings shorter than 3 give a singleton (or nothing when
empty), longer strings give the set of length-3 substrings. -/
def trigrams (text : String) : Finset (List Char) :=
  let t := pyStrip (text.data.map Char.toLower)
  if t.length < 3 then (if t = [] then ∅ else {t})
  else ((List.range (t.length - 2)).map (fun i => (t.drop i).take 3)).toFinset

/-- Jaccard similarity of two sets (`_jaccard` in `scoring.py`). -/
def jaccard (a b : Finset (List Char)) : ℚ :=
  if a = ∅ ∧ b = ∅ then 0
  else
    let intersection := a ∩ b
    let union := a ∪ b
    if union ≠ ∅ then (intersection.card : ℚ) / (union.card : ℚ) else 0

/-- Trigram Jaccard similarity of the summary against the joined commit
messages (`msg_overlap` in `scoring.py`). -/
def msg_overlap (summary : String) (commit_messages : List String) : ℚ :=
  if summary = "" ∨ commit_messages = [] then 0
  else jaccard (trigrams summary) (trigrams (String.intercalate " " commit_messages))

/-- Characters matched by the regex class `[\w/]`. -/
def isPathChar (c : Char) : Bool :=
  c.isAlphanum || c = '_' || c = '/'

/-- Characters matched by `\w`. -/
def isWordChar (c : Char) : Bool :=
  c.isAlphanum || c = '_'

/-- Non-overlapping match count of the file-path regex (a `[\w/]+` run,
a literal dot, then 1-5 word characters), scanning left to right as
`re.findall` does. -/
def countFileTokens (fuel : Nat) (cs : List Char) : Nat :=
  match fuel, cs with
  | 0, _ => 0
  | _, [] => 0
  | fuel + 1, c :: rest =>
    if isPathChar c then
      let after := (c :: rest).dropWhile isPathChar
      match after with
      | '.' :: a2 =>
        let ext := a2.takeWhile isWordChar
        if ext.isEmpty then countFileTokens fuel after
        else countFileTokens fuel (a2.drop (min 5 ext.length)) + 1
      | _ => countFileTokens fuel after
    else countFileTokens fuel rest

/-- Non-overlapping match count of the function-reference regex
(`\w+` immediately followed by the two characters of an empty call). -/
def countFuncRefs (fuel : Nat) (cs : List Char) : Nat :=
  match fuel, cs with
  | 0, _ => 0
  | _, [] => 0
  | fuel + 1, c :: rest =>
    if isWordChar c then
      let after := (c :: rest).dropWhile isWordChar
      match after with
      | '(' :: ')' :: a2 => countFuncRefs fuel a2 + 1
      | _ => countFuncRefs fuel after
    else countFuncRefs fuel rest

/-- Non-overlapping match count of the case-insensitive `line\s*\d+` regex. -/
def countLineRefs (fuel : Nat) (cs : List Char) : Nat :=
  match fuel, cs with
  | 0, _ => 0
  | _, [] => 0
  | fuel + 1, c :: rest =>
    match (c :: rest).map Char.toLower with
    | 'l' :: 'i' :: 'n' :: 'e' :: _ =>
      let tail4 := rest.drop 3
      let afterWs := tail4.dropWhile isPySpace
      let digits := afterWs.takeWhile (·.isDigit)
      if digits.isEmpty then countLineRefs fuel rest
      else countLineRefs fuel (afterWs.drop digits.length) + 1
    | _ => countLineRefs fuel rest

/-- Count of concrete code references in wisdom content (`specificity` in
`scoring.py`): path-like tokens + call-like tokens + line references, plus one
per entry with a truthy `.file`. -/
def specificity (wisdom_entries : List WisdomEntry) : ℚ :=
  wisdom_entries.foldl
    (fun score e =>
      let cs := e.content.data
      score + countFileTokens cs.length cs + countFuncRefs cs.length cs
        + countLineRefs cs.length cs + (if fileTruthy e.file then 1 else 0))
    0

/-- Wisdom entries per changed file (`wisdom_density` in `scoring.py`). -/
def wisdom_density (wisdom_count : ℕ) (files_changed : List String) : ℚ :=
  if files_changed = [] then 0
  else (wisdom_count : ℚ) / (files_changed.length : ℚ)

/-- The four standard wisdom categories. -/
def standardCategories : Finset String :=
  {"dead_end", "gotcha", "insight", "unfinished_thread"}

/-- Fraction of the four standard categories used (`category_coverage` in
`scoring.py`). -/
def category_coverage (categories : Finset String) : ℚ :=
  ((categories ∩ standardCategories).card : ℚ) / (standardCategories.card : ℚ)

/-- Fraction of wisdom entries with a truthy `.file` field
(`grounding_ratio` in `scoring.py`). -/
def grounding_ratio (wisdom_entries : List WisdomEntry) : ℚ :=
  if wisdom_entries = [] then 0
  else ((wisdom_entries.countP (fun e => fileTruthy e.file)) : ℚ) /
    (wisdom_entries.length : ℚ)

/-- Mean word count per wisdom entry (`content_length` in `scoring.py`). -/
def content_length (wisdom_entries : List WisdomEntry) : ℚ :=
  if wisdom_entries = [] then 0
  else (((wisdom_entries.map (fun e => wordCount e.content.data)).sum : ℕ) : ℚ) /
    (wisdom_entries.length : ℚ)

/-- All wisdom entries of a run, in order (`all_wisdom` in `score_run`). -/
def runWisdom (run : RunResult) : List WisdomEntry :=
  run.annots.flatMap (·.wisdom)

/-- The categories used across a run's wisdom entries (`all_categories`). -/
def runCategories (run : RunResult) : Finset String :=
  ((runWisdom run).map (·.category)).toFinset

/-- Compute all heuristic scores for a run (`score_run` in `scoring.py`). -/
def score_run (run : RunResult) : ScoreReport :=
  let all_wisdom := runWisdom run
  let combined_summary := String.intercalate " " (run.annots.map (·.summary))
  { task_id := run.task_id
    prompt_variant := run.prompt_variant
    heuristic :=
      { msg_overlap := msg_overlap combined_summary run.commit_messages
        specificity := specificity all_wisdom
        wisdom_density := wisdom_density all_wisdom.length run.files_changed
        category_coverage := category_coverage (runCategories run)
        grounding_ratio := grounding_ratio all_wisdom
        content_length := content_length all_wisdom }
    annot_count := run.annots.length
    wisdom_count := all_wisdom.length
    judge := none }

-- ---------------------------------------------------------------------------
-- Judge response parsing (eval/judge.py, _parse_json_response)
-- ---------------------------------------------------------------------------

/-- Whitespace skipped by the JSON grammar. -/
def isJsonWs (c : Char) : Bool :=
  c = ' ' || c = '\t' || c = '\n' || c = '\r'

/-- A JSON string body up to the closing quote. The model of `json.loads`
covers the fragment used by the judge responses considered here: strings
without escape sequences (a backslash fails the parse). -/
def parseJsonString (cs : List Char) : Option (String × List Char) :=
  let content := cs.takeWhile (fun c => c ≠ '"' && c ≠ '\\')
  match cs.drop content.length with
  | '"' :: r => some (String.mk content, r)
  | _ => none

/-- Value of a nonempty digit run. -/
def digitsVal (cs : List Char) : Nat :=
  cs.foldl (fun acc c => acc * 10 + (c.toNat - 48)) 0

mutual

/-- One JSON value (integer numbers only) and the remaining input.
Models Python `json.loads` on the response fragments considered here. -/
def parseJsonVal : Nat → List Char → Option (Json × List Char)
  | 0, _ => none
  | fuel + 1, cs =>
    match cs.dropWhile isJsonWs with
    | 'n' :: 'u' :: 'l' :: 'l' :: rest => some (.jnull, rest)
    | 't' :: 'r' :: 'u' :: 'e' :: rest => some (.jbool true, rest)
    | 'f' :: 'a' :: 'l' :: 's' :: 'e' :: rest => some (.jbool false, rest)
    | '"' :: rest => (parseJsonString rest).map (fun p => (.jstr p.1, p.2))
    | '[' :: rest =>
      match rest.dropWhile isJsonWs with
      | ']' :: r => some (.jarr [], r)
      | _ => (parseJsonArr fuel rest).map (fun p => (.jarr p.1, p.2))
    | '{' :: rest =>
      match rest.dropWhile isJsonWs with
      | '}' :: r => some (.jobj [], r)
      | _ => (parseJsonObj fuel rest).map (fun p => (.jobj p.1, p.2))
    | '-' :: rest =>
      let ds := rest.takeWhile (·.isDigit)
      if ds.isEmpty then none
      else some (.jnum (-(digitsVal ds : ℚ)), rest.drop ds.length)
    | c :: rest =>
      if c.isDigit then
        let ds := (c :: rest).takeWhile (·.isDigit)
        some (.jnum (digitsVal ds : ℚ), (c :: rest).drop ds.length)
      else none
    | [] => none

/-- Comma-separated JSON values up to the closing bracket. -/
def parseJsonArr : Nat → List Char → Option (List Json × List Char)
  | 0, _ => none
  | fuel + 1, cs =>
    match parseJsonVal fuel cs with
    | none => none
    | some (v, rest) =>
      match rest.dropWhile isJsonWs with
      | ',' :: r =>
        match parseJsonArr fuel r with
        | some (xs, r2) => some (v :: xs, r2)
        | none => none
      | ']' :: r => some ([v], r)
      | _ => none

/-- Comma-separated `key: value` members up to the closing brace. -/
def parseJsonObj : Nat → List Char → Option (List (String × Json) × List Char)
  | 0, _ => none
  | fuel + 1, cs =>
    match cs.dropWhile isJsonWs with
    | '"' :: rest =>
      match parseJsonString rest with
      | none => none
      | some (k, r1) =>
        match r1.dropWhile isJsonWs with
        | ':' :: r2 =>
          match parseJsonVal fuel r2 with
          | none => none
          | some (v, r3) =>
            match r3.dropWhile isJsonWs with
            | ',' :: r4 =>
              match parseJsonObj fuel r4 with
              | some (kvs, r5) => some ((k, v) :: kvs, r5)
              | none => none
            | '}' :: r4 => some ([(k, v)], r4)
            | _ => none
        | _ => none
    | _ => none

end

/-- Model of Python `json.loads`: parse one value and require only whitespace
after it (`json.loads` rejects trailing data). -/
def json_loads (s : String) : Option Json :=
  let cs := s.data
  match parseJsonVal (2 * cs.length + 2) cs with
  | some (j, rest) => if rest.dropWhile isJsonWs = [] then some j else none
  | none => none

/-- The three-character markdown fence. -/
def fenceChars : List Char := [Char.ofNat 96, Char.ofNat 96, Char.ofNat 96]

/-- Drops `pre` from the front of `cs`, or fails. -/
def dropPrefixChars (pre cs : List Char) : Option (List Char) :=
  match pre, cs with
  | [], rest => some rest
  | p :: ps, c :: rest => if c = p then dropPrefixChars ps rest else none
  | _ :: _, [] => none

/-- The leading-fence substitution of `_parse_json_response`: anchored at the
start, it removes a fence, an optional `json` tag and any following
whitespace. -/
def stripFenceStart (cs : List Char) : List Char :=
  match dropPrefixChars fenceChars cs with
  | none => cs
  | some rest =>
    let rest2 :=
      match dropPrefixChars ['j', 's', 'o', 'n'] rest with
      | some r => r
      | none => rest
    rest2.dropWhile isPySpace

/-- The trailing-fence substitution: anchored at the end of the (already
stripped, hence whitespace-free) text, it removes a trailing fence and the
optional newline before it. -/
def stripFenceEnd (cs : List Char) : List Char :=
  match dropPrefixChars fenceChars cs.reverse with
  | none => cs
  | some rest =>
    match rest with
    | '\n' :: r => r.reverse
    | r => r.reverse

/-- `text.strip()` followed by the two fence substitutions of
`_parse_json_response`. -/
def stripFences (text : String) : List Char :=
  stripFenceEnd (stripFenceStart (pyStrip text.data))

/-- The greedy fallback regex of `_parse_json_response`: with a dot-all greedy
middle, the match runs from the first opening brace to the last closing brace
of the text (when one follows the other). -/
def extractBraces (cs : List Char) : Option (List Char) :=
  match cs.findIdx? (· = '{'), cs.reverse.findIdx? (· = '}') with
  | some i, some jr =>
    let j := cs.length - 1 - jr
    if i < j then some ((cs.drop i).take (j - i + 1)) else none
  | _, _ => none

/-- Modelled from the spec: "the first brace-delimited object in the text" —
the balanced brace span starting at the first opening brace. Used only to
compare the spec's wording against the code's greedy fallback. -/
def firstObjAux : List Char → Nat → List Char → Option (List Char)
  | [], _, _ => none
  | c :: rest, depth, acc =>
    if c = '{' then firstObjAux rest (depth + 1) (c :: acc)
    else if c = '}' then
      match depth with
      | 0 => none
      | 1 => some (c :: acc).reverse
      | d + 1 => firstObjAux rest d (c :: acc)
    else firstObjAux rest depth (c :: acc)

/-- Modelled from the spec: first brace-delimited object of a text. -/
def firstBraceObject (cs : List Char) : Option (List Char) :=
  firstObjAux (cs.dropWhile (· ≠ '{')) 0 []

/-- `_parse_json_response` in `judge.py`: strip fences, try a direct parse,
fall back to the brace-delimited span, and raise `ValueError` otherwise. -/
def parse_json_response (text : String) : Except String Json :=
  let stripped := stripFences text
  match json_loads (String.mk stripped) with
  | some j => .ok j
  | none =>
    match extractBraces stripped with
    | some sub =>
      match json_loads (String.mk sub) with
      | some j => .ok j
      | none =>
        .error ("Could not parse JSON from response: " ++ String.mk (text.data.take 200))
    | none =>
      .error ("Could not parse JSON from response: " ++ String.mk (text.data.take 200))

-- ---------------------------------------------------------------------------
-- Quality judging (eval/judge.py, _judge_quality_entry)
-- ---------------------------------------------------------------------------

/-- One dimension of the judge response: `int(result.get(key, 3))`. -/
def dimVal (result : Json) (key : String) : Except String Int := do
  pyInt (← dictGet result key (.jnum 3))

/-- `_judge_quality_entry` in `judge.py`. `resp` is the parsed JSON of the
judge response, `none` when the call or the response parsing raised; any
exception while building the score likewise yields `none` (the Python
handler logs and returns `None`). -/
def judge_quality_entry (entry_index : Int) (category : String) (resp : Option Json) :
    Option WisdomQualityScore :=
  match resp with
  | none => none
  | some result =>
    match (do
        let red ← dimVal result "redundancy"
        let spe ← dimVal result "specificity"
        let act ← dimVal result "actionability"
        let dep ← dimVal result "depth"
        let acc ← dimVal result "accuracy"
        let cls ← dictGet result "classification" (.jstr "moderate_value")
        let rsn ← dictGet result "reasoning" (.jstr "")
        pure { entry_index := entry_index, category := category, redundancy := red,
               specificity := spe, actionability := act, depth := dep, accuracy := acc,
               classification := cls, reasoning := rsn } :
        Except String WisdomQualityScore) with
    | .ok s => some s
    | .error _ => none

-- ---------------------------------------------------------------------------
-- Coverage judging (eval/judge.py, _judge_coverage)
-- ---------------------------------------------------------------------------

/-- One item of the coverage judge's `items` array, restricted to the fields
`_judge_coverage` reads: `ground_truth_index` is the (already coerced) value
of `int(item.get("ground_truth_index", 0))`, the remaining fields are
present-or-absent values. -/
structure RespItem where
  ground_truth_index : Int
  coverage : Option String := none
  matched_entry : Option Int := none
  explanation : Option String := none
  deriving DecidableEq, Repr

/-- Python list subscripting with a possibly negative index:
`l[i]` is `l[len(l)+i]` for negative `i`, and `IndexError` (`none`) out of
range. -/
def pyListGet (l : List GroundTruth) (i : Int) : Option GroundTruth :=
  if 0 ≤ i then l.get? i.toNat
  else if 0 ≤ (l.length : Int) + i then l.get? ((l.length : Int) + i).toNat
  else none

/-- The `CoverageResult` built for one response item: the tier is resolved
through the ground-truth list when the index is below its length (Python also
accepts negative indices there, raising `IndexError` — `none` — when too
small), and is `"unknown"` otherwise. -/
def coverageOfItem (gt : List GroundTruth) (it : RespItem) : Option CoverageResult :=
  let gt_idx := it.ground_truth_index
  if gt_idx < (gt.length : Int) then
    (pyListGet gt gt_idx).map fun g =>
      { ground_truth_index := gt_idx, tier := g.tier,
        coverage := it.coverage.getD "missed",
        matched_entry := it.matched_entry,
        explanation := it.explanation.getD "" }
  else
    some { ground_truth_index := gt_idx, tier := "unknown",
           coverage := it.coverage.getD "missed",
           matched_entry := it.matched_entry,
           explanation := it.explanation.getD "" }

/-- The per-item loop of `_judge_coverage`; `none` when an `IndexError`
escapes to the exception handler. -/
def buildCoverage (gt : List GroundTruth) (items : List RespItem) :
    Option (List CoverageResult) :=
  mapO (coverageOfItem gt) items

/-- The fill-in loop of `_judge_coverage`: every ground-truth index not among
the returned results is appended as "missed". -/
def fillMissed (gt : List GroundTruth) (rs : List CoverageResult) : List CoverageResult :=
  rs ++ gt.enum.filterMap fun p =>
    if (p.1 : Int) ∈ rs.map (·.ground_truth_index) then none
    else some { ground_truth_index := (p.1 : Int), tier := p.2.tier, coverage := "missed",
                matched_entry := none,
                explanation := "Not returned by judge; assumed missed." }

/-- The exception path of `_judge_coverage`: one "missed" verdict per
ground-truth item carrying the failure reason. -/
def allMissed (gt : List GroundTruth) (msg : String) : List CoverageResult :=
  gt.enum.map fun p =>
    { ground_truth_index := (p.1 : Int), tier := p.2.tier, coverage := "missed",
      matched_entry := none, explanation := "Judge call failed: " ++ msg }

/-- `_judge_coverage` in `judge.py`. `resp` is the parsed `items` list of the
judge response; `none` models an exception from the call, the response
parsing, or the index coercion, rendered as `err`. An `IndexError` raised
while resolving a negative out-of-range index inside the loop falls into the
same handler with Python's standard message. -/
def judge_coverage (gt : List GroundTruth) (resp : Option (List RespItem)) (err : String) :
    List CoverageResult :=
  if gt.isEmpty then []
  else
    match resp with
    | some items =>
      match buildCoverage gt items with
      | some rs => fillMissed gt rs
      | none => allMissed gt "list index out of range"
    | none => allMissed gt err

-- ---------------------------------------------------------------------------
-- Aggregation (eval/judge.py, _aggregate_scores)
-- ---------------------------------------------------------------------------

/-- `_mean` in `_aggregate_scores`. -/
def meanInt (vals : List Int) : ℚ :=
  if vals = [] then 0 else ((vals.sum : Int) : ℚ) / (vals.length : ℚ)

/-- `_tier_fractions` in `_aggregate_scores`: (any-coverage fraction,
full-only fraction) for one tier, 0 when the tier has no items. -/
def tier_fractions (results : List CoverageResult) (tier : String) : ℚ × ℚ :=
  let tier_items := results.filter (fun r => r.tier == tier)
  if tier_items.isEmpty then (0, 0)
  else
    let any_cov := tier_items.countP (fun r => r.coverage == "full" || r.coverage == "partial")
    let full_cov := tier_items.countP (fun r => r.coverage == "full")
    ((any_cov : ℚ) / (tier_items.length : ℚ), (full_cov : ℚ) / (tier_items.length : ℚ))

/-- `classifications.count(label)`: only string classifications equal to the
label count (Python equality between a non-string and a string is `False`). -/
def classificationCount (qs : List WisdomQualityScore) (label : String) : ℕ :=
  qs.countP fun q =>
    match q.classification with
    | .jstr s => s == label
    | _ => false

/-- `_aggregate_scores` in `judge.py`. -/
def aggregate_scores (quality_scores : List WisdomQualityScore)
    (coverage_results : List CoverageResult) (judge_model : String) : LLMJudgeScores :=
  let surf := tier_fractions coverage_results "surface"
  let std := tier_fractions coverage_results "standard"
  let dee := tier_fractions coverage_results "deep"
  { mean_redundancy := meanInt (quality_scores.map (·.redundancy))
    mean_specificity := meanInt (quality_scores.map (·.specificity))
    mean_actionability := meanInt (quality_scores.map (·.actionability))
    mean_depth := meanInt (quality_scores.map (·.depth))
    mean_accuracy := meanInt (quality_scores.map (·.accuracy))
    high_value_count := classificationCount quality_scores "high_value"
    moderate_value_count := classificationCount quality_scores "moderate_value"
    low_value_count := classificationCount quality_scores "low_value"
    noise_count := classificationCount quality_scores "noise"
    surface_coverage := surf.1
    standard_coverage := std.1
    deep_coverage := dee.1
    surface_full := surf.2
    standard_full := std.2
    deep_full := dee.2
    quality_scores := quality_scores
    coverage_results := coverage_results
    judge_model := judge_model }

-- ---------------------------------------------------------------------------
-- Orchestration (eval/driver.py, run_single)
-- ---------------------------------------------------------------------------

/-- What the try-block of `run_single` produces when no stage raises. -/
structure PipelineOutput where
  annots : List Annot
  commit_messages : List String
  files_changed : List String
  diff_text : String
  agent_output : String
  elapsed_seconds : ℚ
  deriving DecidableEq, Repr

/-- `run_single` in `driver.py`, with the effectful stages abstracted:
`pipeline` is the combined outcome of setup, agent run and extraction,
`Except.error e` when any stage raised an exception whose `str` is `e`.
Returns the `RunResult` the orchestrator constructs (the subsequent
`score_run` call is modelled separately). -/
def run_single (task_id prompt_variant : String)
    (pipeline : Except String PipelineOutput) : RunResult :=
  match pipeline with
  | .ok o =>
    { task_id := task_id, prompt_variant := prompt_variant, annots := o.annots,
      commit_messages := o.commit_messages, files_changed := o.files_changed,
      diff_text := o.diff_text, agent_output := o.agent_output,
      elapsed_seconds := o.elapsed_seconds, success := true, error := none }
  | .error e =>
    { task_id := task_id, prompt_variant := prompt_variant, annots := [],
      commit_messages := [], files_changed := [], diff_text := "",
      agent_output := "", elapsed_seconds := 0, success := false, error := some e }

-- ---------------------------------------------------------------------------
-- Annotation export parsing (eval/extract.py, extract_annotations)
-- ---------------------------------------------------------------------------

/-- What one wisdom dict of an export line yields (raw JSON values, as Python
stores them untyped). -/
structure RawWisdom where
  category : Json
  content : Json
  file : Json

/-- What one export line yields (`Annotation(...)` built by
`extract_annotations`; raw JSON values). -/
structure RawAnnot where
  commit_sha : Json
  timestamp : Json
  summary : Json
  wisdom : List RawWisdom

/-- One wisdom entry of an export line: `w.get(...)` with empty defaults. -/
def parseWisdomItem (w : Json) : Except String RawWisdom := do
  let c ← dictGet w "category" (.jstr "")
  let t ← dictGet w "content" (.jstr "")
  let f ← dictGet w "file" .jnull
  pure ⟨c, t, f⟩

/-- One export line: nested `get` accesses with empty defaults, iterating the
`wisdom` value. -/
def parseLine (entry : Json) : Except String RawAnnot := do
  let ann_data ← dictGet entry "annotation" (.jobj [])
  let wisdomJson ← dictGet ann_data "wisdom" (.jarr [])
  let ws ← pyIter wisdomJson
  let wisdom ← mapE parseWisdomItem ws
  let sha ← dictGet entry "commit_sha" (.jstr "")
  let ts ← dictGet entry "timestamp" (.jstr "")
  let summ ← dictGet ann_data "summary" (.jstr "")
  pure ⟨sha, ts, summ, wisdom⟩

/-- `extract_annotations` in `extract.py` (shortened name): `returncode` is
the exit status of the export subprocess and `lines` holds the `json.loads`
outcome of each non-blank stdout line. A non-zero exit yields no annotations;
a parse error on any line aborts the whole extraction. -/
def extract_annots (returncode : Int) (lines : List (Except String Json)) :
    Except String (List RawAnnot) :=
  if returncode ≠ 0 then .ok []
  else mapE (fun l => do parseLine (← l)) lines

-- ---------------------------------------------------------------------------
-- Cross-variant analysis (eval/analysis.py)
-- ---------------------------------------------------------------------------

/-- The per-tier `{full, partial, missed}` counters of `_summarize_variant`
(`part` models the "partial" key). -/
structure CovCounts where
  full : ℕ
  part : ℕ
  missed : ℕ
  deriving DecidableEq, Repr

/-- The `{surface, standard, deep}` coverage table. -/
structure TierTable where
  surface : CovCounts
  standard : CovCounts
  deep : CovCounts
  deriving DecidableEq, Repr

/-- Mean of the five quality dimensions across judged runs. -/
structure QualityMeans where
  redundancy : ℚ
  specificity : ℚ
  actionability : ℚ
  depth : ℚ
  accuracy : ℚ
  deriving DecidableEq, Repr

/-- Summed classification counts (Python adds whatever numbers are stored, so
the totals are rationals). -/
structure ClassCounts where
  high_value : ℚ
  moderate_value : ℚ
  low_value : ℚ
  noise : ℚ
  deriving DecidableEq, Repr

/-- `VariantSummary` in `models.py` (dict fields become structures). -/
structure VariantSummary where
  variant : String
  tasks_run : ℕ
  mean_wisdom_count : ℚ
  mean_quality : QualityMeans
  classification_counts : ClassCounts
  coverage_by_tier : TierTable
  deriving DecidableEq, Repr

/-- `ComparisonReport` in `models.py`; the `coverage_delta` dict becomes the
three `delta_*` fields. -/
structure ComparisonReport where
  baseline : VariantSummary
  experiment : VariantSummary
  delta_surface : ℚ
  delta_standard : ℚ
  delta_deep : ℚ
  deriving DecidableEq, Repr

/-- `e["scores"].get("judge")` for one loaded entry. -/
def judgeOf (e : Json) : Except String Json := do
  dictGet (← jIndex e "scores") "judge" .jnull

/-- Monadic filter (the `judged` list comprehension). -/
def filterE (p : Json → Except String Bool) : List Json → Except String (List Json)
  | [] => .ok []
  | x :: xs => do
    let b ← p x
    let rest ← filterE p xs
    pure (if b then x :: rest else rest)

/-- One `+1` of the coverage-table loop: only recognised tier and coverage
strings hit a counter, everything else is skipped by the `in` checks. -/
def bumpCov (c : CovCounts) (cov : String) : CovCounts :=
  if cov = "full" then { c with full := c.full + 1 }
  else if cov = "partial" then { c with part := c.part + 1 }
  else if cov = "missed" then { c with missed := c.missed + 1 }
  else c

/-- Dispatch of one coverage result into the tier table: the `tier in table`
and `cov in table[tier]` membership checks mean only recognised string keys
hit a counter. -/
def bumpTier (t : TierTable) (tier cov : Json) : TierTable :=
  match tier, cov with
  | .jstr ts, .jstr cs =>
    if ts = "surface" then { t with surface := bumpCov t.surface cs }
    else if ts = "standard" then { t with standard := bumpCov t.standard cs }
    else if ts = "deep" then { t with deep := bumpCov t.deep cs }
    else t
  | _, _ => t

/-- Mean of a list of rationals (`sum(values)/len(values)`). -/
def meanQ (vals : List ℚ) : ℚ :=
  vals.sum / (vals.length : ℚ)

/-- One `mean_<dim>` column over the judged entries. -/
def qualityColumn (judged : List Json) (dim : String) : Except String (List ℚ) :=
  mapE (fun e => do
    asNum (← jIndex (← jIndex (← jIndex e "scores") "judge") ("mean_" ++ dim))) judged

/-- `_summarize_variant` in `analysis.py`, over the already `json.loads`-ed
entries of one JSONL batch. Any `KeyError`/`AttributeError`/`TypeError` of
the Python code is an `Except.error`. -/
def summarize_variant (variant : String) (entries : List Json) :
    Except String VariantSummary := do
  let tasks_run := entries.length
  let wisdom_counts ← mapE (fun e => do
    asNum (← jIndex (← jIndex e "scores") "wisdom_count")) entries
  let mean_wisdom :=
    if wisdom_counts = [] then 0 else wisdom_counts.sum / (wisdom_counts.length : ℚ)
  let judged ← filterE (fun e => do pure (truthy (← judgeOf e))) entries
  let mean_quality ←
    if judged.isEmpty then pure (⟨0, 0, 0, 0, 0⟩ : QualityMeans)
    else do
      let r ← qualityColumn judged "redundancy"
      let s ← qualityColumn judged "specificity"
      let a ← qualityColumn judged "actionability"
      let d ← qualityColumn judged "depth"
      let ac ← qualityColumn judged "accuracy"
      pure (⟨meanQ r, meanQ s, meanQ a, meanQ d, meanQ ac⟩ : QualityMeans)
  let class_counts ← foldE
    (fun (c : ClassCounts) e => do
      let j ← jIndex (← jIndex e "scores") "judge"
      let hv ← asNum (← dictGet j "high_value_count" (.jnum 0))
      let mv ← asNum (← dictGet j "moderate_value_count" (.jnum 0))
      let lv ← asNum (← dictGet j "low_value_count" (.jnum 0))
      let nv ← asNum (← dictGet j "noise_count" (.jnum 0))
      pure ⟨c.high_value + hv, c.moderate_value + mv, c.low_value + lv, c.noise + nv⟩)
    (⟨0, 0, 0, 0⟩ : ClassCounts) judged
  let coverage_by_tier ← foldE
    (fun (t : TierTable) e => do
      let j ← jIndex (← jIndex e "scores") "judge"
      let crs ← pyIter (← dictGet j "coverage_results" (.jarr []))
      foldE
        (fun t2 cr => do
          let tier ← jIndex cr "tier"
          let cov ← jIndex cr "coverage"
          pure (bumpTier t2 tier cov))
        t crs)
    (⟨⟨0, 0, 0⟩, ⟨0, 0, 0⟩, ⟨0, 0, 0⟩⟩ : TierTable) judged
  pure { variant := variant, tasks_run := tasks_run, mean_wisdom_count := mean_wisdom,
         mean_quality := mean_quality, classification_counts := class_counts,
         coverage_by_tier := coverage_by_tier }

/-- `_detect_variant` in `analysis.py`: the set of string prompt-variant
values found in the entries, returned when it is a singleton, the fallback
label otherwise. (A non-string stored variant value would flow through
untyped in Python; no claim touches that case.) -/
def detect_variant (entries : List Json) (fallback : String) : Except String String := do
  let variants ← foldE
    (fun (vs : List String) e => do
      let s ← dictGet e "scores" (.jobj [])
      let v1 ← dictGet s "prompt_variant" .jnull
      let r ← dictGet e "run" (.jobj [])
      let v2 ← dictGet r "prompt_variant" .jnull
      let v := if truthy v1 then v1 else v2
      pure (match v with
        | .jstr sv => if sv ≠ "" ∧ ¬ vs.contains sv then vs ++ [sv] else vs
        | _ => vs))
    [] entries
  if variants.length = 1 then pure (variants.headD fallback) else pure fallback

/-- Covered fraction of one tier's counters: `(full + partial) / total`,
0 when the tier is empty. -/
def covFrac (c : CovCounts) : ℚ :=
  let total := c.full + c.part + c.missed
  if total = 0 then 0 else ((c.full + c.part : ℕ) : ℚ) / (total : ℚ)

/-- `compare_variants` in `analysis.py`, over the two already-loaded entry
lists (`load_runs` parses each non-blank line of the JSONL files). -/
def compare_variants (baseline_entries experiment_entries : List Json) :
    Except String ComparisonReport := do
  let baseline_variant ← detect_variant baseline_entries "baseline"
  let experiment_variant ← detect_variant experiment_entries "experiment"
  let baseline_summary ← summarize_variant baseline_variant baseline_entries
  let experiment_summary ← summarize_variant experiment_variant experiment_entries
  pure { baseline := baseline_summary, experiment := experiment_summary,
         delta_surface := covFrac experiment_summary.coverage_by_tier.surface -
           covFrac baseline_summary.coverage_by_tier.surface,
         delta_standard := covFrac experiment_summary.coverage_by_tier.standard -
           covFrac baseline_summary.coverage_by_tier.standard,
         delta_deep := covFrac experiment_summary.coverage_by_tier.deep -
           covFrac baseline_summary.coverage_by_tier.deep }

-- ---------------------------------------------------------------------------
-- Log serialization (eval/__main__.py, the runs.jsonl entry)
-- ---------------------------------------------------------------------------

/-- `dataclasses.asdict` of a `WisdomEntry`. -/
def encodeWisdom (w : WisdomEntry) : Json :=
  .jobj [("category", .jstr w.category), ("content", .jstr w.content),
         ("file", match w.file with | some s => .jstr s | none => .jnull)]

/-- `dataclasses.asdict` of an annotation record. -/
def encodeAnnot (a : Annot) : Json :=
  .jobj [("commit_sha", .jstr a.commit_sha), ("timestamp", .jstr a.timestamp),
         ("summary", .jstr a.summary), ("wisdom", .jarr (a.wisdom.map encodeWisdom))]

/-- `dataclasses.asdict` of a `RunResult`. -/
def encodeRun (r : RunResult) : Json :=
  .jobj [("task_id", .jstr r.task_id), ("prompt_variant", .jstr r.prompt_variant),
         ("annotations", .jarr (r.annots.map encodeAnnot)),
         ("commit_messages", .jarr (r.commit_messages.map .jstr)),
         ("files_changed", .jarr (r.files_changed.map .jstr)),
         ("diff_text", .jstr r.diff_text), ("agent_output", .jstr r.agent_output),
         ("elapsed_seconds", .jnum r.elapsed_seconds),
         ("success", .jbool r.success),
         ("error", match r.error with | some s => .jstr s | none => .jnull)]

/-- `dataclasses.asdict` of a `HeuristicScores`. -/
def encodeHeuristic (h : HeuristicScores) : Json :=
  .jobj [("msg_overlap", .jnum h.msg_overlap), ("specificity", .jnum h.specificity),
         ("wisdom_density", .jnum h.wisdom_density),
         ("category_coverage", .jnum h.category_coverage),
         ("grounding_ratio", .jnum h.grounding_ratio),
         ("content_length", .jnum h.content_length)]

/-- `dataclasses.asdict` of a `WisdomQualityScore`. -/
def encodeQuality (q : WisdomQualityScore) : Json :=
  .jobj [("entry_index", .jnum (q.entry_index : ℚ)), ("category", .jstr q.category),
         ("redundancy", .jnum (q.redundancy : ℚ)), ("specificity", .jnum (q.specificity : ℚ)),
         ("actionability", .jnum (q.actionability : ℚ)), ("depth", .jnum (q.depth : ℚ)),
         ("accuracy", .jnum (q.accuracy : ℚ)), ("classification", q.classification),
         ("reasoning", q.reasoning)]

/-- `dataclasses.asdict` of a `CoverageResult`. -/
def encodeCoverage (c : CoverageResult) : Json :=
  .jobj [("ground_truth_index", .jnum (c.ground_truth_index : ℚ)),
         ("tier", .jstr c.tier), ("coverage", .jstr c.coverage),
         ("matched_entry", match c.matched_entry with
           | some i => .jnum (i : ℚ) | none => .jnull),
         ("explanation", .jstr c.explanation)]

/-- `dataclasses.asdict` of an `LLMJudgeScores`. -/
def encodeJudge (j : LLMJudgeScores) : Json :=
  .jobj [("mean_redundancy", .jnum j.mean_redundancy),
         ("mean_specificity", .jnum j.mean_specificity),
         ("mean_actionability", .jnum j.mean_actionability),
         ("mean_depth", .jnum j.mean_depth),
         ("mean_accuracy", .jnum j.mean_accuracy),
         ("high_value_count", .jnum (j.high_value_count : ℚ)),
         ("moderate_value_count", .jnum (j.moderate_value_count : ℚ)),
         ("low_value_count", .jnum (j.low_value_count : ℚ)),
         ("noise_count", .jnum (j.noise_count : ℚ)),
         ("surface_coverage", .jnum j.surface_coverage),
         ("standard_coverage", .jnum j.standard_coverage),
         ("deep_coverage", .jnum j.deep_coverage),
         ("surface_full", .jnum j.surface_full),
         ("standard_full", .jnum j.standard_full),
         ("deep_full", .jnum j.deep_full),
         ("quality_scores", .jarr (j.quality_scores.map encodeQuality)),
         ("coverage_results", .jarr (j.coverage_results.map encodeCoverage)),
         ("judge_model", .jstr j.judge_model)]

/-- `dataclasses.asdict` of a `ScoreReport` (the `annotation_count` key
serializes the `annot_count` field). -/
def encodeReport (r : ScoreReport) : Json :=
  .jobj [("task_id", .jstr r.task_id), ("prompt_variant", .jstr r.prompt_variant),
         ("heuristic", encodeHeuristic r.heuristic),
         ("annotation_count", .jnum (r.annot_count : ℚ)),
         ("wisdom_count", .jnum (r.wisdom_count : ℚ)),
         ("judge", match r.judge with | some j => encodeJudge j | none => .jnull)]

/-- One line of `runs.jsonl` as written by `main` in `__main__.py`. -/
def logEntry (run : RunResult) (report : ScoreReport) : Json :=
  .jobj [("run", encodeRun run), ("scores", encodeReport report)]

/-- The coverage-by-tier structure computed directly from a list of coverage
results, bucketing exactly the recognised tier/coverage strings. Used as the
specification side of the round-trip claim. -/
def tierTableOf (crs : List CoverageResult) : TierTable :=
  { surface := { full := crs.countP (fun c => c.tier == "surface" && c.coverage == "full"),
                 part := crs.countP (fun c => c.tier == "surface" && c.coverage == "partial"),
                 missed := crs.countP (fun c => c.tier == "surface" && c.coverage == "missed") }
    standard := { full := crs.countP (fun c => c.tier == "standard" && c.coverage == "full"),
                  part := crs.countP (fun c => c.tier == "standard" && c.coverage == "partial"),
                  missed := crs.countP (fun c => c.tier == "standard" && c.coverage == "missed") }
    deep := { full := crs.countP (fun c => c.tier == "deep" && c.coverage == "full"),
              part := crs.countP (fun c => c.tier == "deep" && c.coverage == "partial"),
              missed := crs.countP (fun c => c.tier == "deep" && c.coverage == "missed") } }

-- ---------------------------------------------------------------------------
-- Claim-support definitions
-- ---------------------------------------------------------------------------

/-- Whether a JSON value is an object. -/
def isObjB : Json → Bool
  | .jobj _ => true
  | _ => false

/-- A well-shaped `wisdom` value of an export line: an array of objects. -/
def goodWisdomVal : Json → Bool
  | .jarr xs => xs.all isObjB
  | _ => false

/-- A well-shaped export line: an object whose `annotation` value (when
present) is an object whose `wisdom` value (when present) is an array of
objects — the shapes on which `parseLine` cannot raise. -/
def goodLine : Json → Bool
  | .jobj kvs =>
    (match assocFind kvs "annotation" with
     | none => true
     | some (.jobj akvs) =>
       (match assocFind akvs "wisdom" with
        | none => true
        | some wv => goodWisdomVal wv)
     | some _ => false)
  | _ => false

/-- One serialized coverage result in the tier-delta scenario. -/
def crJson (cov : String) : Json :=
  .jobj [("tier", .jstr "standard"), ("coverage", .jstr cov)]

/-- One loaded `runs.jsonl` entry for the tier-delta scenario: a judged run
whose coverage results all sit in the `standard` tier. -/
def scenarioEntry (variant : String) (covs : List String) : Json :=
  .jobj [("run", .jobj [("prompt_variant", .jstr variant)]),
         ("scores", .jobj
           [("prompt_variant", .jstr variant), ("wisdom_count", .jnum 0),
            ("judge", .jobj
              [("mean_redundancy", .jnum 0), ("mean_specificity", .jnum 0),
               ("mean_actionability", .jnum 0), ("mean_depth", .jnum 0),
               ("mean_accuracy", .jnum 0),
               ("coverage_results", .jarr (covs.map crJson))])])]

/-- Baseline batch of the tier-delta scenario: 2 of 4 standard items covered. -/
def scenarioBaseline : List Json :=
  [scenarioEntry "baseline" ["full", "partial", "missed", "missed"]]

/-- Experiment batch of the tier-delta scenario: 3 of 4 standard items
covered. -/
def scenarioExperiment : List Json :=
  [scenarioEntry "experiment" ["full", "full", "partial", "missed"]]

-- ---------------------------------------------------------------------------
-- Shared lemmas
-- ---------------------------------------------------------------------------

theorem category_coverage_spec (S : Finset String) :
    0 ≤ category_coverage S ∧ category_coverage S ≤ 1 ∧
    (category_coverage S = 1 ↔ standardCategories ⊆ S) := by
  have hT : standardCategories.card = 4 := by decide
  have hTQ : (0 : ℚ) < (standardCategories.card : ℚ) := by rw [hT]; norm_num
  refine ⟨?_, ?_, ?_⟩
  · unfold category_coverage
    apply div_nonneg <;> positivity
  · unfold category_coverage
    rw [div_le_one hTQ]
    exact_mod_cast Finset.card_le_card Finset.inter_subset_right
  · unfold category_coverage
    rw [div_eq_one_iff_eq (ne_of_gt hTQ)]
    constructor
    · intro h
      have hc : standardCategories.card ≤ (S ∩ standardCategories).card := by
        exact_mod_cast le_of_eq h.symm
      have heq : S ∩ standardCategories = standardCategories :=
        Finset.eq_of_subset_of_card_le Finset.inter_subset_right hc
      intro x hx
      have hxi : x ∈ S ∩ standardCategories := by rw [heq]; exact hx
      exact Finset.mem_of_mem_inter_left hxi
    · intro h
      rw [Finset.inter_eq_right.mpr h]

theorem jaccard_bounds (a b : Finset (List Char)) :
    0 ≤ jaccard a b ∧ jaccard a b ≤ 1 := by
  unfold jaccard
  dsimp only
  split_ifs with h1 h2
  · exact ⟨le_refl 0, by norm_num⟩
  · constructor
    · apply div_nonneg <;> positivity
    · rw [div_le_one]
      · exact_mod_cast Finset.card_le_card Finset.inter_subset_union
      · have hne : (a ∪ b).Nonempty := Finset.nonempty_iff_ne_empty.mpr h2
        exact_mod_cast Finset.card_pos.mpr hne
  · exact ⟨le_refl 0, by norm_num⟩

@[simp]
theorem exceptBind_ok {α β : Type} (a : α) (f : α → Except String β) :
    (Except.ok a >>= f) = f a := rfl

@[simp]
theorem exceptBind_error {α β : Type} (m : String) (f : α → Except String β) :
    ((Except.error m : Except String α) >>= f) = .error m := rfl

@[simp]
theorem exceptPure {α : Type} (a : α) : (pure a : Except String α) = .ok a := rfl

theorem mapE_ok_length {α β : Type} (f : α → Except String β) (l : List α)
    (h : ∀ a ∈ l, ∃ b, f a = .ok b) :
    ∃ rs, mapE f l = .ok rs ∧ rs.length = l.length := by
  induction l with
  | nil => exact ⟨[], rfl, rfl⟩
  | cons x xs ih =>
    obtain ⟨b, hb⟩ := h x (by simp)
    obtain ⟨rs, hrs, hlen⟩ := ih (fun a ha => h a (by simp [ha]))
    exact ⟨b :: rs, by simp [mapE, hb, hrs], by simp [hlen]⟩

theorem mapE_error_of_mem {α β : Type} (f : α → Except String β) (l : List α)
    (a : α) (ha : a ∈ l) (m : String) (hf : f a = .error m) :
    ∃ m2, mapE f l = .error m2 := by
  induction l with
  | nil => cases ha
  | cons x xs ih =>
    rcases List.mem_cons.mp ha with rfl | hmem
    · exact ⟨m, by simp [mapE, hf]⟩
    · cases hx : f x with
      | error e2 => exact ⟨e2, by simp [mapE, hx]⟩
      | ok b =>
        obtain ⟨m2, hm2⟩ := ih hmem
        exact ⟨m2, by simp [mapE, hx, hm2]⟩

@[simp]
theorem exceptIsOk_ok {α : Type} (a : α) : exceptIsOk (Except.ok a) = true := rfl

@[simp]
theorem exceptIsOk_error {α : Type} (m : String) :
    exceptIsOk (Except.error m : Except String α) = false := rfl

theorem exceptIsOk_ex {α : Type} (x : Except String α) (h : exceptIsOk x = true) :
    ∃ a, x = .ok a := by
  cases x with
  | ok a => exact ⟨a, rfl⟩
  | error m => simp [exceptIsOk] at h

theorem parseWisdomItem_obj (kvs : List (String × Json)) :
    ∃ r, parseWisdomItem (.jobj kvs) = .ok r :=
  ⟨_, rfl⟩

theorem parseLine_ok_of_goodLine (j : Json) (hg : goodLine j = true) :
    ∃ a, parseLine j = .ok a := by
  apply exceptIsOk_ex
  cases j with
  | jobj kvs =>
    unfold parseLine
    cases hann : assocFind kvs "annotation" with
    | none =>
      simp [dictGet, hann, pyIter, mapE, assocFind]
    | some ann =>
      cases ann with
      | jobj akvs =>
        cases hw : assocFind akvs "wisdom" with
        | none =>
          simp [dictGet, hann, hw, pyIter, mapE, assocFind]
        | some wv =>
          have hgw : goodWisdomVal wv = true := by
            have := hg
            simp only [goodLine, hann, hw] at this
            exact this
          cases wv with
          | jarr xs =>
            have hall : ∀ w ∈ xs, ∃ r, parseWisdomItem w = .ok r := by
              intro w hwm
              have hob : isObjB w = true := by
                simp only [goodWisdomVal] at hgw
                exact List.all_eq_true.mp hgw w hwm
              cases w with
              | jobj o => exact parseWisdomItem_obj o
              | jnull => simp [isObjB] at hob
              | jbool b => simp [isObjB] at hob
              | jnum q => simp [isObjB] at hob
              | jstr s => simp [isObjB] at hob
              | jarr ys => simp [isObjB] at hob
            obtain ⟨rs, hrs, _⟩ := mapE_ok_length _ xs hall
            simp [dictGet, hann, hw, pyIter, hrs]
          | jnull => simp [goodWisdomVal] at hgw
          | jbool b => simp [goodWisdomVal] at hgw
          | jnum q => simp [goodWisdomVal] at hgw
          | jstr s => simp [goodWisdomVal] at hgw
          | jobj o => simp [goodWisdomVal] at hgw
      | jnull => simp [goodLine, hann] at hg
      | jbool b => simp [goodLine, hann] at hg
      | jnum q => simp [goodLine, hann] at hg
      | jstr s => simp [goodLine, hann] at hg
      | jarr xs => simp [goodLine, hann] at hg
  | jnull => simp [goodLine] at hg
  | jbool b => simp [goodLine] at hg
  | jnum q => simp [goodLine] at hg
  | jstr s => simp [goodLine] at hg
  | jarr xs => simp [goodLine] at hg

-- ---------------------------------------------------------------------------
-- C3
-- ---------------------------------------------------------------------------

/-- C3: a non-zero export exit yields an empty annotation list (not an
error); on a zero exit with well-shaped lines every line yields exactly one
annotation record (with missing sub-fields defaulting to empty values, shown
by the two default-evaluation conjuncts); and a JSON parse error on any line
makes the whole extraction fail. -/
theorem C3_extract_annots (returncode : Int) (lines : List (Except String Json)) :
    (returncode ≠ 0 → extract_annots returncode lines = .ok []) ∧
    (returncode = 0 → (∀ l ∈ lines, ∃ j, l = .ok j ∧ goodLine j = true) →
      ∃ anns, extract_annots returncode lines = .ok anns ∧
        anns.length = lines.length) ∧
    (returncode = 0 → ∀ e, Except.error e ∈ lines →
      ∃ m, extract_annots returncode lines = .error m) ∧
    parseLine (.jobj []) =
      .ok ⟨.jstr "", .jstr "", .jstr "", []⟩ ∧
    parseWisdomItem (.jobj []) = .ok ⟨.jstr "", .jstr "", .jnull⟩ := by
  refine ⟨?_, ?_, ?_, rfl, rfl⟩
  · intro h
    unfold extract_annots
    rw [if_pos h]
  · intro h hgood
    subst h
    have hall : ∀ l ∈ lines, ∃ a, (do parseLine (← l) : Except String RawAnnot) = .ok a := by
      intro l hl
      obtain ⟨j, rfl, hg⟩ := hgood l hl
      obtain ⟨a, ha⟩ := parseLine_ok_of_goodLine j hg
      exact ⟨a, by simp [ha]⟩
    obtain ⟨anns, hanns, hlen⟩ := mapE_ok_length _ lines hall
    exact ⟨anns, hanns, hlen⟩
  · intro h e he
    subst h
    exact mapE_error_of_mem _ lines _ he e rfl

/-- C3 witness: exit 0, one well-shaped line, one malformed-line batch. -/
theorem C3_extract_annots_witness :
    ((1 : Int) ≠ 0 → extract_annots 1 [] = .ok []) ∧
    (∃ anns, extract_annots 0 [Except.ok (Json.jobj [])] = .ok anns ∧
      anns.length = 1) ∧
    (∃ m, extract_annots 0 [Except.error "bad json"] = .error m) := by
  refine ⟨(C3_extract_annots 1 []).1, ?_, ?_⟩
  · exact (C3_extract_annots 0 [Except.ok (Json.jobj [])]).2.1 rfl
      (by intro l hl; rw [List.mem_singleton.mp hl]; exact ⟨Json.jobj [], rfl, rfl⟩)
  · exact (C3_extract_annots 0 [Except.error "bad json"]).2.2.1 rfl "bad json" (by simp)

theorem coverageOfItem_idx (gt : List GroundTruth) (it : RespItem) (r : CoverageResult)
    (h : coverageOfItem gt it = some r) :
    r.ground_truth_index = it.ground_truth_index := by
  unfold coverageOfItem at h
  dsimp only at h
  split_ifs at h with hlt
  · obtain ⟨g, _, rfl⟩ := Option.map_eq_some'.mp h
    rfl
  · obtain rfl := Option.some_inj.mp h
    rfl

theorem coverageOfItem_some (gt : List GroundTruth) (it : RespItem)
    (h0 : 0 ≤ it.ground_truth_index) (hlt : it.ground_truth_index < (gt.length : Int)) :
    ∃ r, coverageOfItem gt it = some r := by
  unfold coverageOfItem
  rw [if_pos hlt]
  unfold pyListGet
  rw [if_pos h0]
  have hti : it.ground_truth_index.toNat < gt.length := by omega
  cases hg : gt.get? it.ground_truth_index.toNat with
  | none =>
    have := List.get?_eq_none.mp hg
    omega
  | some g => exact ⟨_, rfl⟩

theorem buildCoverage_ok (gt : List GroundTruth) (items : List RespItem)
    (h : ∀ it ∈ items, ∃ r, coverageOfItem gt it = some r) :
    ∃ rs, buildCoverage gt items = some rs ∧
      rs.map (·.ground_truth_index) = items.map (·.ground_truth_index) := by
  induction items with
  | nil => exact ⟨[], rfl, rfl⟩
  | cons x xs ih =>
    obtain ⟨r, hr⟩ := h x (by simp)
    obtain ⟨rs, hrs, hmap⟩ := ih (fun a ha => h a (by simp [ha]))
    have hb : buildCoverage gt xs = some rs := hrs
    refine ⟨r :: rs, ?_, ?_⟩
    · simp [buildCoverage, mapO, hr] at hb ⊢
      simp [hb]
    · simp [hmap, coverageOfItem_idx gt x r hr]

theorem fill_aux_length (rsIdx : List Int) (l : List (ℕ × GroundTruth)) :
    (l.filterMap fun p =>
      if ((p.1 : Int) ∈ rsIdx) then none
      else some (⟨(p.1 : Int), p.2.tier, "missed", none,
        "Not returned by judge; assumed missed."⟩ : CoverageResult)).length =
      l.countP fun p => ! (decide ((p.1 : Int) ∈ rsIdx)) := by
  induction l with
  | nil => rfl
  | cons x xs ih =>
    by_cases hx : (x.1 : Int) ∈ rsIdx
    · simp [List.filterMap_cons, hx, List.countP_cons, ih]
    · simp [List.filterMap_cons, hx, List.countP_cons, ih]

theorem countP_enumFrom_fst {α : Type} (p : ℕ → Bool) (l : List α) (k : ℕ) :
    ((List.enumFrom k l).countP fun pr => p pr.1) = (List.range' k l.length).countP p := by
  induction l generalizing k with
  | nil => rfl
  | cons x xs ih =>
    simp [List.enumFrom_cons, List.range'_succ, List.countP_cons, ih (k + 1)]

theorem countP_not_add {α : Type} (p : α → Bool) (l : List α) :
    (l.countP fun a => ! (p a)) + l.countP p = l.length := by
  induction l with
  | nil => rfl
  | cons x xs ih =>
    rw [List.countP_cons, List.countP_cons]
    by_cases hx : p x = true <;> simp [hx] <;> omega

theorem countP_or_disj {α : Type} (p q : α → Prop) [DecidablePred p] [DecidablePred q]
    (l : List α) (hd : ∀ a ∈ l, p a → ¬ q a) :
    (l.countP fun a => decide (p a ∨ q a)) =
      (l.countP fun a => decide (p a)) + (l.countP fun a => decide (q a)) := by
  induction l with
  | nil => rfl
  | cons a l ih =>
    rw [List.countP_cons, List.countP_cons, List.countP_cons,
      ih fun b hb => hd b (List.mem_cons_of_mem _ hb)]
    by_cases hp : p a
    · have hq : ¬ q a := hd a (by simp) hp
      simp [hp, hq]
      omega
    · by_cases hq : q a <;> simp [hp, hq] <;> omega

theorem countP_range_mem (n : ℕ) (idx : List Int) (hnd : idx.Nodup)
    (hin : ∀ x ∈ idx, 0 ≤ x ∧ x < (n : Int)) :
    ((List.range n).countP fun (i : ℕ) => decide ((i : Int) ∈ idx)) = idx.length := by
  induction idx with
  | nil => simp
  | cons x xs ih =>
    rw [List.nodup_cons] at hnd
    have hx := hin x (by simp)
    have hcongr : ((List.range n).countP fun (i : ℕ) => decide ((i : Int) ∈ x :: xs)) =
        (List.range n).countP fun (i : ℕ) => decide ((i : Int) = x ∨ (i : Int) ∈ xs) :=
      List.countP_congr fun i _ => by simp [List.mem_cons]
    rw [hcongr,
      countP_or_disj (fun (i : ℕ) => (i : Int) = x) (fun (i : ℕ) => (i : Int) ∈ xs) _
        (fun i _ hip hiq => hnd.1 (hip ▸ hiq))]
    have hone : ((List.range n).countP fun (i : ℕ) => decide ((i : Int) = x)) = 1 := by
      obtain ⟨h0, hlt⟩ := hx
      have hkn : x.toNat < n := by omega
      have hc2 : ((List.range n).countP fun (i : ℕ) => decide ((i : Int) = x)) =
          (List.range n).countP (· == x.toNat) := by
        apply List.countP_congr
        intro i _
        constructor
        · intro h
          simp only [decide_eq_true_eq] at h
          simp only [beq_iff_eq]
          omega
        · intro h
          simp only [beq_iff_eq] at h
          simp only [decide_eq_true_eq]
          omega
      rw [hc2, ← List.count_eq_countP]
      exact List.count_eq_one_of_mem (List.nodup_range n) (List.mem_range.mpr hkn)
    rw [hone, ih hnd.2 (fun y hy => hin y (List.mem_cons_of_mem _ hy))]
    simp only [List.length_cons]
    omega

theorem coverageOfItem_none (gt : List GroundTruth) (it : RespItem)
    (h : it.ground_truth_index < -(gt.length : Int)) :
    coverageOfItem gt it = none := by
  unfold coverageOfItem
  dsimp only
  rw [if_pos (by omega : it.ground_truth_index < (gt.length : Int))]
  unfold pyListGet
  rw [if_neg (by omega), if_neg (by omega)]
  rfl

theorem mapO_none_of_mem {α β : Type} (f : α → Option β) (l : List α) (a : α)
    (ha : a ∈ l) (hf : f a = none) : mapO f l = none := by
  induction l with
  | nil => cases ha
  | cons x xs ih =>
    rcases List.mem_cons.mp ha with rfl | hmem
    · simp [mapO, hf]
    · cases hx : f x with
      | none => simp [mapO, hx]
      | some b => simp [mapO, hx, ih hmem]

theorem allMissed_length (gt : List GroundTruth) (msg : String) :
    (allMissed gt msg).length = gt.length := by
  simp [allMissed, List.enum_length]

theorem allMissed_fields (gt : List GroundTruth) (msg : String) :
    ∀ r ∈ allMissed gt msg, r.coverage = "missed" ∧
      r.explanation = "Judge call failed: " ++ msg := by
  intro r hr
  obtain ⟨p, _, rfl⟩ := List.mem_map.mp hr
  exact ⟨rfl, rfl⟩

-- ---------------------------------------------------------------------------
-- C1
-- ---------------------------------------------------------------------------

/-- C1 counterexample: with one ground-truth item and a judge response
repeating index 0 twice, the coverage pass returns two results — the count
can exceed the number of ground-truth items, so the claimed equality fails
for this response. -/
theorem C1_counterexample :
    (judge_coverage [⟨"gotcha", "g", "surface"⟩]
        (some [⟨0, some "full", none, none⟩, ⟨0, some "partial", none, none⟩]) "e").length ≠
      ([⟨"gotcha", "g", "surface"⟩] : List GroundTruth).length := by decide

/-- C1 amended: for a non-empty ground-truth list, a failed judge call yields
exactly one "missed" verdict per ground-truth item carrying the failure
reason — and an `IndexError` from a far-negative response index lands in the
same handler, again with exactly one "missed" per item; a successful call
whose response items carry pairwise-distinct in-range indices (covering any
subset of the ground-truth items) yields exactly one result per ground-truth
item, the fill-in loop supplying "missed" verdicts for the uncovered ones.
Only duplicate (or non-raising out-of-range) indices break the equality, as
the counterexample shows. -/
theorem C1_coverage_counts (gt : List GroundTruth) (err : String) (items : List RespItem)
    (hne : gt ≠ [])
    (hnodup : (items.map (·.ground_truth_index)).Nodup)
    (hin : ∀ it ∈ items, 0 ≤ it.ground_truth_index ∧
      it.ground_truth_index < (gt.length : Int)) :
    (judge_coverage gt (some items) err).length = gt.length ∧
    judge_coverage gt none err = allMissed gt err ∧
    (judge_coverage gt none err).length = gt.length ∧
    (∀ r ∈ judge_coverage gt none err, r.coverage = "missed" ∧
      r.explanation = "Judge call failed: " ++ err) ∧
    (∀ items2 : List RespItem,
      (∃ it ∈ items2, it.ground_truth_index < -(gt.length : Int)) →
      judge_coverage gt (some items2) err = allMissed gt "list index out of range" ∧
      (judge_coverage gt (some items2) err).length = gt.length) := by
  have hempty : gt.isEmpty = false := by
    cases gt with
    | nil => exact absurd rfl hne
    | cons g gs => rfl
  have hnone : judge_coverage gt none err = allMissed gt err := by
    simp [judge_coverage, hempty]
  refine ⟨?_, hnone, ?_, ?_, ?_⟩
  · obtain ⟨rs, hbc, hmap⟩ := buildCoverage_ok gt items
      (fun it hit => coverageOfItem_some gt it (hin it hit).1 (hin it hit).2)
    have hnodups : (rs.map (·.ground_truth_index)).Nodup := by rw [hmap]; exact hnodup
    have hins : ∀ x ∈ rs.map (·.ground_truth_index), 0 ≤ x ∧ x < (gt.length : Int) := by
      rw [hmap]
      intro x hxm
      obtain ⟨it, hit, rfl⟩ := List.mem_map.mp hxm
      exact hin it hit
    have hcount := countP_range_mem gt.length (rs.map (·.ground_truth_index)) hnodups hins
    have hmaplen : (rs.map (·.ground_truth_index)).length = rs.length := by simp
    have hcomp := countP_not_add
      (fun (i : ℕ) => decide ((i : Int) ∈ rs.map (·.ground_truth_index)))
      (List.range gt.length)
    have henum : (gt.enum.countP fun pr =>
        ! (decide ((pr.1 : Int) ∈ rs.map (·.ground_truth_index)))) =
        ((List.range gt.length).countP fun (i : ℕ) =>
          ! (decide ((i : Int) ∈ rs.map (·.ground_truth_index)))) := by
      rw [show gt.enum = List.enumFrom 0 gt from rfl]
      exact (countP_enumFrom_fst
        (fun (i : ℕ) => ! (decide ((i : Int) ∈ rs.map (·.ground_truth_index)))) gt 0).trans
        (by rw [← List.range_eq_range'])
    have hfl := fill_aux_length (rs.map (·.ground_truth_index)) gt.enum
    have hrange : (List.range gt.length).length = gt.length := by simp
    simp only [judge_coverage, hempty, Bool.false_eq_true, if_false, hbc]
    unfold fillMissed
    rw [List.length_append, hfl, henum]
    omega
  · rw [hnone]; exact allMissed_length gt err
  · rw [hnone]; exact allMissed_fields gt err
  · intro items2 hex
    obtain ⟨it, hit, hlt⟩ := hex
    have hb2 : buildCoverage gt items2 = none :=
      mapO_none_of_mem _ _ _ hit (coverageOfItem_none gt it hlt)
    constructor
    · simp [judge_coverage, hempty, hb2]
    · simp only [judge_coverage, hempty, Bool.false_eq_true, if_false, hb2]
      exact allMissed_length gt "list index out of range"

/-- C1 witness: two ground-truth items, a PARTIAL response covering only the
first (the fill loop supplies the second), and a far-negative index hitting
the IndexError path. -/
theorem C1_coverage_counts_witness :
    (judge_coverage [⟨"insight", "a", "surface"⟩, ⟨"gotcha", "b", "deep"⟩]
        (some [⟨0, some "full", none, none⟩]) "x").length =
      ([⟨"insight", "a", "surface"⟩, ⟨"gotcha", "b", "deep"⟩] : List GroundTruth).length ∧
    judge_coverage [⟨"insight", "a", "surface"⟩, ⟨"gotcha", "b", "deep"⟩] none "x" =
      allMissed [⟨"insight", "a", "surface"⟩, ⟨"gotcha", "b", "deep"⟩] "x" ∧
    judge_coverage [⟨"insight", "a", "surface"⟩, ⟨"gotcha", "b", "deep"⟩]
        (some [⟨-5, none, none, none⟩]) "x" =
      allMissed [⟨"insight", "a", "surface"⟩, ⟨"gotcha", "b", "deep"⟩]
        "list index out of range" := by
  have h := C1_coverage_counts [⟨"insight", "a", "surface"⟩, ⟨"gotcha", "b", "deep"⟩] "x"
    [⟨0, some "full", none, none⟩] (by decide) (by decide) (by decide)
  exact ⟨h.1, h.2.1,
    (h.2.2.2.2 [⟨-5, none, none, none⟩]
      ⟨⟨-5, none, none, none⟩, by decide, by decide⟩).1⟩


-- ---------------------------------------------------------------------------
-- C2
-- ---------------------------------------------------------------------------

/-- C2: when any stage inside the try-block of `run_single` raises an
exception rendered as `e` (every raise site in the pipeline produces a
non-empty message, so `e` is non-empty), the constructed `RunResult` has
`success = false`, empty annotation/commit/file lists, empty diff and agent
output, zero elapsed seconds, and a set, non-empty error string. -/
theorem C2_run_single_failure (task_id prompt_variant e : String) (he : e ≠ "") :
    (run_single task_id prompt_variant (.error e)).success = false ∧
    (run_single task_id prompt_variant (.error e)).annots = [] ∧
    (run_single task_id prompt_variant (.error e)).commit_messages = [] ∧
    (run_single task_id prompt_variant (.error e)).files_changed = [] ∧
    (run_single task_id prompt_variant (.error e)).diff_text = "" ∧
    (run_single task_id prompt_variant (.error e)).agent_output = "" ∧
    (run_single task_id prompt_variant (.error e)).elapsed_seconds = 0 ∧
    (run_single task_id prompt_variant (.error e)).error = some e ∧
    (run_single task_id prompt_variant (.error e)).error ≠ some "" ∧
    (run_single task_id prompt_variant (.error e)).error ≠ none := by
  refine ⟨rfl, rfl, rfl, rfl, rfl, rfl, rfl, rfl, ?_, ?_⟩
  · simpa [run_single] using he
  · simp [run_single]

/-- C2 witness: a concrete failed stage. -/
theorem C2_run_single_failure_witness :
    ("boom" : String) ≠ "" ∧
    (run_single "t1" "baseline" (.error "boom")).success = false ∧
    (run_single "t1" "baseline" (.error "boom")).error = some "boom" :=
  ⟨by decide, (C2_run_single_failure "t1" "baseline" "boom" (by decide)).1,
   (C2_run_single_failure "t1" "baseline" "boom" (by decide)).2.2.2.2.2.2.2.1⟩

-- ---------------------------------------------------------------------------
-- C4
-- ---------------------------------------------------------------------------

/-- C4 counterexample: a judge response rating redundancy 7 yields a stored
score of 7 — the code does not clamp the dimensions into [1,5], so the claim
fails for this JSON object. -/
theorem C4_counterexample :
    judge_quality_entry 0 "gotcha" (some (.jobj [("redundancy", .jnum 7)])) =
      some { entry_index := 0, category := "gotcha", redundancy := 7,
             specificity := 3, actionability := 3, depth := 3, accuracy := 3,
             classification := .jstr "moderate_value", reasoning := .jstr "" } ∧
    ¬ (1 ≤ (7 : Int) ∧ (7 : Int) ≤ 5) :=
  ⟨by with_unfolding_all rfl, by decide⟩

/-- C4 amended: a successful per-entry quality call stores the integer
coercions of the five response fields (3 when absent) without clamping; the
dimensions lie in [1,5] exactly when those coerced values do, and a failed
call yields no score at all. -/
theorem C4_quality_entry (entry_index : Int) (category : String) (r : Json)
    (v1 v2 v3 v4 v5 : Int)
    (h1 : dimVal r "redundancy" = .ok v1) (hb1 : 1 ≤ v1 ∧ v1 ≤ 5)
    (h2 : dimVal r "specificity" = .ok v2) (hb2 : 1 ≤ v2 ∧ v2 ≤ 5)
    (h3 : dimVal r "actionability" = .ok v3) (hb3 : 1 ≤ v3 ∧ v3 ≤ 5)
    (h4 : dimVal r "depth" = .ok v4) (hb4 : 1 ≤ v4 ∧ v4 ≤ 5)
    (h5 : dimVal r "accuracy" = .ok v5) (hb5 : 1 ≤ v5 ∧ v5 ≤ 5) :
    (∃ s, judge_quality_entry entry_index category (some r) = some s ∧
       s.redundancy = v1 ∧ s.specificity = v2 ∧ s.actionability = v3 ∧
       s.depth = v4 ∧ s.accuracy = v5 ∧
       (1 ≤ s.redundancy ∧ s.redundancy ≤ 5) ∧
       (1 ≤ s.specificity ∧ s.specificity ≤ 5) ∧
       (1 ≤ s.actionability ∧ s.actionability ≤ 5) ∧
       (1 ≤ s.depth ∧ s.depth ≤ 5) ∧
       (1 ≤ s.accuracy ∧ s.accuracy ≤ 5)) ∧
    judge_quality_entry entry_index category none = none := by
  cases r with
  | jobj kvs =>
    refine ⟨⟨⟨entry_index, category, v1, v2, v3, v4, v5,
        (assocFind kvs "classification").getD (.jstr "moderate_value"),
        (assocFind kvs "reasoning").getD (.jstr "")⟩,
      ?_, rfl, rfl, rfl, rfl, rfl, hb1, hb2, hb3, hb4, hb5⟩, rfl⟩
    simp only [judge_quality_entry, h1, h2, h3, h4, h5, exceptBind_ok, dictGet, exceptPure]
  | jnull => simp [dimVal, dictGet] at h1
  | jbool b => simp [dimVal, dictGet] at h1
  | jnum q => simp [dimVal, dictGet] at h1
  | jstr s => simp [dimVal, dictGet] at h1
  | jarr xs => simp [dimVal, dictGet] at h1

/-- C4 witness: a concrete in-range response. -/
theorem C4_quality_entry_witness :
    (∃ s, judge_quality_entry 0 "insight"
        (some (.jobj [("redundancy", .jnum 4), ("specificity", .jnum 4),
          ("actionability", .jnum 4), ("depth", .jnum 4), ("accuracy", .jnum 4)])) = some s ∧
       s.redundancy = 4 ∧ s.specificity = 4 ∧ s.actionability = 4 ∧
       s.depth = 4 ∧ s.accuracy = 4 ∧
       (1 ≤ s.redundancy ∧ s.redundancy ≤ 5) ∧
       (1 ≤ s.specificity ∧ s.specificity ≤ 5) ∧
       (1 ≤ s.actionability ∧ s.actionability ≤ 5) ∧
       (1 ≤ s.depth ∧ s.depth ≤ 5) ∧
       (1 ≤ s.accuracy ∧ s.accuracy ≤ 5)) ∧
    judge_quality_entry 0 "insight" none = none :=
  C4_quality_entry 0 "insight"
    (.jobj [("redundancy", .jnum 4), ("specificity", .jnum 4),
      ("actionability", .jnum 4), ("depth", .jnum 4), ("accuracy", .jnum 4)])
    4 4 4 4 4
    (by with_unfolding_all rfl) (by decide) (by with_unfolding_all rfl) (by decide)
    (by with_unfolding_all rfl) (by decide) (by with_unfolding_all rfl) (by decide)
    (by with_unfolding_all rfl) (by decide)

-- ---------------------------------------------------------------------------
-- C5
-- ---------------------------------------------------------------------------

/-- C5 counterexample: on a response containing two brace-delimited objects,
the direct parse fails, the FIRST brace-delimited object exists and parses,
yet the parser raises — its greedy fallback spans from the first opening to
the LAST closing brace, which is not valid JSON. -/
theorem C5_counterexample :
    json_loads (String.mk (stripFences "a \x7b\"x\": 1\x7d b \x7b\"y\": 2\x7d")) = none ∧
    (firstBraceObject (stripFences "a \x7b\"x\": 1\x7d b \x7b\"y\": 2\x7d")).map String.mk =
      some "\x7b\"x\": 1\x7d" ∧
    json_loads "\x7b\"x\": 1\x7d" = some (.jobj [("x", .jnum 1)]) ∧
    (extractBraces (stripFences "a \x7b\"x\": 1\x7d b \x7b\"y\": 2\x7d")).map String.mk =
      some "\x7b\"x\": 1\x7d b \x7b\"y\": 2\x7d" ∧
    parse_json_response "a \x7b\"x\": 1\x7d b \x7b\"y\": 2\x7d" =
      .error ("Could not parse JSON from response: " ++ "a \x7b\"x\": 1\x7d b \x7b\"y\": 2\x7d") :=
  ⟨rfl, rfl, rfl, rfl, rfl⟩

/-- C5 amended: after fence stripping, a successful direct parse is returned;
otherwise the parser falls back to the span from the first opening brace to
the last closing brace (not the first brace-delimited object) and returns its
parse when that succeeds; in every remaining case it raises the
distinguishable `ValueError`. -/
theorem C5_parse_json_response (text : String) :
    (∀ j, json_loads (String.mk (stripFences text)) = some j →
       parse_json_response text = .ok j) ∧
    (∀ sub j, json_loads (String.mk (stripFences text)) = none →
       extractBraces (stripFences text) = some sub →
       json_loads (String.mk sub) = some j →
       parse_json_response text = .ok j) ∧
    (json_loads (String.mk (stripFences text)) = none →
       extractBraces (stripFences text) = none →
       parse_json_response text =
         .error ("Could not parse JSON from response: " ++ String.mk (text.data.take 200))) ∧
    (∀ sub, json_loads (String.mk (stripFences text)) = none →
       extractBraces (stripFences text) = some sub →
       json_loads (String.mk sub) = none →
       parse_json_response text =
         .error ("Could not parse JSON from response: " ++ String.mk (text.data.take 200))) := by
  refine ⟨?_, ?_, ?_, ?_⟩
  · intro j h
    simp [parse_json_response, h]
  · intro sub j h1 h2 h3
    simp [parse_json_response, h1, h2, h3]
  · intro h1 h2
    simp [parse_json_response, h1, h2]
  · intro sub h1 h2 h3
    simp [parse_json_response, h1, h2, h3]

/-- C5 witness: a fenced, directly parseable response. -/
theorem C5_parse_json_response_witness :
    parse_json_response "```json\n\x7b\"a\": 2\x7d\n```" = .ok (.jobj [("a", .jnum 2)]) :=
  (C5_parse_json_response "```json\n\x7b\"a\": 2\x7d\n```").1 (.jobj [("a", .jnum 2)]) rfl

-- ---------------------------------------------------------------------------
-- C6
-- ---------------------------------------------------------------------------

/-- C6: for every run, the heuristic `category_coverage` lies in [0,1] and
equals 1 exactly when all four expected categories appear at least once among
the run's wisdom entries. -/
theorem C6_category_coverage (run : RunResult) :
    0 ≤ (score_run run).heuristic.category_coverage ∧
    (score_run run).heuristic.category_coverage ≤ 1 ∧
    ((score_run run).heuristic.category_coverage = 1 ↔
      ∀ c ∈ ["dead_end", "gotcha", "insight", "unfinished_thread"],
        c ∈ (runWisdom run).map (·.category)) := by
  have hcc : (score_run run).heuristic.category_coverage =
      category_coverage (runCategories run) := rfl
  obtain ⟨h0, h1, h2⟩ := category_coverage_spec (runCategories run)
  refine ⟨hcc ▸ h0, hcc ▸ h1, ?_⟩
  rw [hcc, h2]
  constructor
  · intro h c hc
    have hcs : c ∈ standardCategories := by
      simp only [standardCategories, Finset.mem_insert, Finset.mem_singleton]
      simpa using hc
    have := h hcs
    simpa [runCategories, List.mem_toFinset] using this
  · intro h x hx
    have hx4 : x = "dead_end" ∨ x = "gotcha" ∨ x = "insight" ∨ x = "unfinished_thread" := by
      simpa [standardCategories, Finset.mem_insert, Finset.mem_singleton] using hx
    have hmem : x ∈ (runWisdom run).map (·.category) := by
      rcases hx4 with h1 | h2 | h3 | h4 <;> subst_vars <;> [exact h _ (by simp);
        exact h _ (by simp); exact h _ (by simp); exact h _ (by simp)]
    simpa [runCategories, List.mem_toFinset] using hmem

-- ---------------------------------------------------------------------------
-- C7
-- ---------------------------------------------------------------------------

/-- C7: `grounding_ratio` and `msg_overlap` always lie in [0,1], and
`msg_overlap` is 0 when the summary is empty or the commit-message list is
empty. -/
theorem C7_bounds (summary : String) (commit_messages : List String)
    (wisdom_entries : List WisdomEntry) :
    (0 ≤ grounding_ratio wisdom_entries ∧ grounding_ratio wisdom_entries ≤ 1) ∧
    (0 ≤ msg_overlap summary commit_messages ∧ msg_overlap summary commit_messages ≤ 1) ∧
    ((summary = "" ∨ commit_messages = []) → msg_overlap summary commit_messages = 0) := by
  refine ⟨?_, ?_, ?_⟩
  · unfold grounding_ratio
    split_ifs with h
    · norm_num
    · constructor
      · apply div_nonneg <;> positivity
      · rw [div_le_one]
        · exact_mod_cast List.countP_le_length _
        · have hlen : wisdom_entries.length ≠ 0 :=
            fun hh => h (List.length_eq_zero.mp hh)
          exact_mod_cast Nat.pos_of_ne_zero hlen
  · unfold msg_overlap
    split_ifs with h
    · norm_num
    · exact jaccard_bounds _ _
  · intro h
    unfold msg_overlap
    rw [if_pos h]

/-- C7 witness: both emptiness conditions at a concrete input. -/
theorem C7_bounds_witness : msg_overlap "" [] = 0 :=
  (C7_bounds "" [] []).2.2 (Or.inl rfl)

-- ---------------------------------------------------------------------------
-- C8
-- ---------------------------------------------------------------------------

/-- C8: for every pair of loaded batches, each tier's coverage delta equals
the experiment's covered fraction minus the baseline's covered fraction
(covered fraction = (full+partial)/total, 0 for an empty tier); in
particular, a baseline covering 2 of 4 standard items against an experiment
covering 3 of 4 yields a standard delta of 0.25. -/
theorem C8_coverage_delta (baseline_entries experiment_entries : List Json)
    (rep : ComparisonReport)
    (h : compare_variants baseline_entries experiment_entries = .ok rep) :
    (rep.delta_surface = covFrac rep.experiment.coverage_by_tier.surface -
      covFrac rep.baseline.coverage_by_tier.surface ∧
    rep.delta_standard = covFrac rep.experiment.coverage_by_tier.standard -
      covFrac rep.baseline.coverage_by_tier.standard ∧
    rep.delta_deep = covFrac rep.experiment.coverage_by_tier.deep -
      covFrac rep.baseline.coverage_by_tier.deep) ∧
    Except.map (fun r => r.delta_standard)
      (compare_variants scenarioBaseline scenarioExperiment) = .ok ((1 : ℚ)/4) := by
  constructor
  · cases hb : detect_variant baseline_entries "baseline" with
    | error e => simp [compare_variants, hb] at h
    | ok bv =>
      cases he : detect_variant experiment_entries "experiment" with
      | error e => simp [compare_variants, hb, he] at h
      | ok ev =>
        cases hs1 : summarize_variant bv baseline_entries with
        | error e => simp [compare_variants, hb, he, hs1] at h
        | ok bs =>
          cases hs2 : summarize_variant ev experiment_entries with
          | error e => simp [compare_variants, hb, he, hs1, hs2] at h
          | ok es =>
            simp only [compare_variants, hb, he, hs1, hs2, exceptBind_ok, exceptPure,
              Except.ok.injEq] at h
            subst h
            exact ⟨rfl, rfl, rfl⟩
  · with_unfolding_all rfl

/-- C8 witness: the concrete 2/4-versus-3/4 scenario batches. -/
theorem C8_coverage_delta_witness :
    ∃ rep, compare_variants scenarioBaseline scenarioExperiment = .ok rep ∧
      rep.delta_standard = covFrac rep.experiment.coverage_by_tier.standard -
        covFrac rep.baseline.coverage_by_tier.standard ∧
      rep.delta_standard = (1 : ℚ)/4 := by
  cases hcv : compare_variants scenarioBaseline scenarioExperiment with
  | error e =>
    have hok : exceptIsOk (compare_variants scenarioBaseline scenarioExperiment) = true := by
      with_unfolding_all rfl
    rw [hcv] at hok
    simp [exceptIsOk] at hok
  | ok rep =>
    have hthm := C8_coverage_delta scenarioBaseline scenarioExperiment rep hcv
    have hmap := hthm.2
    rw [hcv] at hmap
    simp only [Except.map, Except.ok.injEq] at hmap
    exact ⟨rep, rfl, hthm.1.2.1, hmap⟩

-- ---------------------------------------------------------------------------
-- C10
-- ---------------------------------------------------------------------------

/-- C10: with an empty ground-truth list the coverage pass returns no results
(independently of any judge response), and the aggregated scores then carry
0.0 in all six per-tier coverage fractions. -/
theorem C10_empty_ground_truth (resp : Option (List RespItem)) (err : String)
    (quality_scores : List WisdomQualityScore) (judge_model : String) :
    judge_coverage [] resp err = [] ∧
    (aggregate_scores quality_scores (judge_coverage [] resp err) judge_model).surface_coverage = 0 ∧
    (aggregate_scores quality_scores (judge_coverage [] resp err) judge_model).standard_coverage = 0 ∧
    (aggregate_scores quality_scores (judge_coverage [] resp err) judge_model).deep_coverage = 0 ∧
    (aggregate_scores quality_scores (judge_coverage [] resp err) judge_model).surface_full = 0 ∧
    (aggregate_scores quality_scores (judge_coverage [] resp err) judge_model).standard_full = 0 ∧
    (aggregate_scores quality_scores (judge_coverage [] resp err) judge_model).deep_full = 0 :=
  ⟨rfl, rfl, rfl, rfl, rfl, rfl, rfl⟩

-- ---------------------------------------------------------------------------
-- C9
-- ---------------------------------------------------------------------------

theorem foldE_coverage (crs : List CoverageResult) (t : TierTable) :
    foldE (fun t2 cr => do
        let tier ← jIndex cr "tier"
        let cov ← jIndex cr "coverage"
        pure (bumpTier t2 tier cov)) t (crs.map encodeCoverage) =
      .ok (crs.foldl (fun t2 c => bumpTier t2 (.jstr c.tier) (.jstr c.coverage)) t) := by
  induction crs generalizing t with
  | nil => rfl
  | cons c cs ih =>
    have hstep : (do
        let tier ← jIndex (encodeCoverage c) "tier"
        let cov ← jIndex (encodeCoverage c) "coverage"
        pure (bumpTier t tier cov) : Except String TierTable) =
        .ok (bumpTier t (.jstr c.tier) (.jstr c.coverage)) := rfl
    simp only [List.map_cons, foldE, hstep, exceptBind_ok, List.foldl_cons]
    exact ih _

theorem summarize_singleton (v : String) (run : RunResult) (tid pv : String)
    (heur : HeuristicScores) (ac wc : ℕ) (js : LLMJudgeScores) (table : TierTable)
    (hfold : foldE (fun t2 cr => do
        let tier ← jIndex cr "tier"
        let cov ← jIndex cr "coverage"
        pure (bumpTier t2 tier cov)) (⟨⟨0,0,0⟩,⟨0,0,0⟩,⟨0,0,0⟩⟩ : TierTable)
      (js.coverage_results.map encodeCoverage) = .ok table) :
    summarize_variant v [logEntry run ⟨tid, pv, heur, ac, wc, some js⟩] =
      .ok ⟨v, 1, (wc : ℚ),
        ⟨js.mean_redundancy, js.mean_specificity, js.mean_actionability,
         js.mean_depth, js.mean_accuracy⟩,
        ⟨(js.high_value_count : ℚ), (js.moderate_value_count : ℚ),
         (js.low_value_count : ℚ), (js.noise_count : ℚ)⟩, table⟩ := by
  simp [jIndex, dictGet] at hfold
  simp [summarize_variant, logEntry, encodeReport, encodeRun, mapE,
    jIndex, dictGet, assocFind, asNum, filterE, judgeOf, truthy, encodeJudge,
    qualityColumn, pyIter, foldE, meanQ, hfold]

theorem bumpTier_counts (t : TierTable) (ts cs : String) :
    ((bumpTier t (.jstr ts) (.jstr cs)).surface.full =
      t.surface.full + (if ts = "surface" ∧ cs = "full" then 1 else 0)) ∧
    ((bumpTier t (.jstr ts) (.jstr cs)).surface.part =
      t.surface.part + (if ts = "surface" ∧ cs = "partial" then 1 else 0)) ∧
    ((bumpTier t (.jstr ts) (.jstr cs)).surface.missed =
      t.surface.missed + (if ts = "surface" ∧ cs = "missed" then 1 else 0)) ∧
    ((bumpTier t (.jstr ts) (.jstr cs)).standard.full =
      t.standard.full + (if ts = "standard" ∧ cs = "full" then 1 else 0)) ∧
    ((bumpTier t (.jstr ts) (.jstr cs)).standard.part =
      t.standard.part + (if ts = "standard" ∧ cs = "partial" then 1 else 0)) ∧
    ((bumpTier t (.jstr ts) (.jstr cs)).standard.missed =
      t.standard.missed + (if ts = "standard" ∧ cs = "missed" then 1 else 0)) ∧
    ((bumpTier t (.jstr ts) (.jstr cs)).deep.full =
      t.deep.full + (if ts = "deep" ∧ cs = "full" then 1 else 0)) ∧
    ((bumpTier t (.jstr ts) (.jstr cs)).deep.part =
      t.deep.part + (if ts = "deep" ∧ cs = "partial" then 1 else 0)) ∧
    ((bumpTier t (.jstr ts) (.jstr cs)).deep.missed =
      t.deep.missed + (if ts = "deep" ∧ cs = "missed" then 1 else 0)) := by
  unfold bumpTier bumpCov
  by_cases h1 : ts = "surface" <;> by_cases h2 : ts = "standard" <;>
    by_cases h3 : ts = "deep" <;>
    simp only [h1, h2, h3, if_true, if_false, ite_true, ite_false] <;>
    simp_all <;>
    (by_cases c1 : cs = "full" <;> by_cases c2 : cs = "partial" <;>
      by_cases c3 : cs = "missed" <;> simp_all)

theorem foldl_bumpTier (crs : List CoverageResult) (t : TierTable) :
    crs.foldl (fun t2 c => bumpTier t2 (.jstr c.tier) (.jstr c.coverage)) t =
      ⟨⟨t.surface.full + (tierTableOf crs).surface.full,
        t.surface.part + (tierTableOf crs).surface.part,
        t.surface.missed + (tierTableOf crs).surface.missed⟩,
       ⟨t.standard.full + (tierTableOf crs).standard.full,
        t.standard.part + (tierTableOf crs).standard.part,
        t.standard.missed + (tierTableOf crs).standard.missed⟩,
       ⟨t.deep.full + (tierTableOf crs).deep.full,
        t.deep.part + (tierTableOf crs).deep.part,
        t.deep.missed + (tierTableOf crs).deep.missed⟩⟩ := by
  induction crs generalizing t with
  | nil =>
    obtain ⟨⟨a1, a2, a3⟩, ⟨b1, b2, b3⟩, ⟨c1, c2, c3⟩⟩ := t
    simp [tierTableOf]
  | cons c cs ih =>
    rw [List.foldl_cons, ih]
    have hb := bumpTier_counts t c.tier c.coverage
    simp only [tierTableOf, List.countP_cons, Bool.and_eq_true, beq_iff_eq,
      TierTable.mk.injEq, CovCounts.mk.injEq]
    refine ⟨⟨?_, ?_, ?_⟩, ⟨?_, ?_, ?_⟩, ⟨?_, ?_, ?_⟩⟩ <;>
      simp only [hb.1, hb.2.1, hb.2.2.1, hb.2.2.2.1, hb.2.2.2.2.1, hb.2.2.2.2.2.1,
        hb.2.2.2.2.2.2.1, hb.2.2.2.2.2.2.2.1, hb.2.2.2.2.2.2.2.2] <;>
      split_ifs <;> omega

theorem foldl_bumpTier_zero (crs : List CoverageResult) :
    crs.foldl (fun t2 c => bumpTier t2 (.jstr c.tier) (.jstr c.coverage))
      (⟨⟨0, 0, 0⟩, ⟨0, 0, 0⟩, ⟨0, 0, 0⟩⟩ : TierTable) = tierTableOf crs := by
  rw [foldl_bumpTier]
  simp only [Nat.zero_add]

/-- C9: serializing a ScoreReport+RunResult pair to the `runs.jsonl` entry
shape and reloading it through the comparison summarizer reproduces the
pair's wisdom count, its judge's classification counts, and the
coverage-by-tier bucketing of its judge's coverage results (the
`json.dumps`/`json.loads` string round trip is modelled at the JSON-tree
level). -/
theorem C9_log_roundtrip (v : String) (run : RunResult) (report : ScoreReport)
    (js : LLMJudgeScores) (hj : report.judge = some js) :
    ∃ s, summarize_variant v [logEntry run report] = .ok s ∧
      s.mean_wisdom_count = (report.wisdom_count : ℚ) ∧
      s.classification_counts = ⟨(js.high_value_count : ℚ), (js.moderate_value_count : ℚ),
        (js.low_value_count : ℚ), (js.noise_count : ℚ)⟩ ∧
      s.coverage_by_tier = tierTableOf js.coverage_results := by
  obtain ⟨tid, pv, heur, ac, wc, judge⟩ := report
  obtain rfl : judge = some js := hj
  have hfold := foldE_coverage js.coverage_results ⟨⟨0, 0, 0⟩, ⟨0, 0, 0⟩, ⟨0, 0, 0⟩⟩
  have hsum := summarize_singleton v run tid pv heur ac wc js _ hfold
  exact ⟨_, hsum, rfl, rfl, foldl_bumpTier_zero js.coverage_results⟩

/-- C9 witness: a concrete judged pair. -/
theorem C9_log_roundtrip_witness :
    ∃ s, summarize_variant "v"
        [logEntry ⟨"t", "v", [], [], [], "", "", 0, true, none⟩
          ⟨"t", "v", ⟨0, 0, 0, 0, 0, 0⟩, 0, 5,
            some ⟨0, 0, 0, 0, 0, 1, 2, 3, 4, 0, 0, 0, 0, 0, 0, [],
              [⟨0, "standard", "full", none, ""⟩], "m"⟩⟩] = .ok s ∧
      s.mean_wisdom_count = ((5 : ℕ) : ℚ) ∧
      s.classification_counts = ⟨((1 : ℕ) : ℚ), ((2 : ℕ) : ℚ), ((3 : ℕ) : ℚ), ((4 : ℕ) : ℚ)⟩ ∧
      s.coverage_by_tier = tierTableOf [⟨0, "standard", "full", none, ""⟩] :=
  C9_log_roundtrip "v" ⟨"t", "v", [], [], [], "", "", 0, true, none⟩
    ⟨"t", "v", ⟨0, 0, 0, 0, 0, 0⟩, 0, 5,
      some ⟨0, 0, 0, 0, 0, 1, 2, 3, 4, 0, 0, 0, 0, 0, 0, [],
        [⟨0, "standard", "full", none, ""⟩], "m"⟩⟩
    ⟨0, 0, 0, 0, 0, 1, 2, 3, 4, 0, 0, 0, 0, 0, 0, [],
      [⟨0, "standard", "full", none, ""⟩], "m"⟩ rfl

end Chronicle
